import Mathlib

/-!
Verification development for the olc-diy expression pipeline (lexer →
shunting-yard compiler → RPN solver).  The definitions below are a shallow
embedding of the Rust sources; per the spec, the most-complete variant of the
pipeline is embedded: `src/lexer/shared_types/operators.rs`,
`src/lexer/shared_types/states.rs`, `src/lexer/shared_types.rs`,
`src/lexer.rs`, `src/compiler.rs`, `src/solver.rs`.

Modelling conventions:
* Rust `f64` values are modelled as `ℚ`.  Every concrete computation probed by
  the theorems below (small integer sums, products, differences, and `powf`
  with small natural exponents, and `u64` casts far below `2 ^ 53`) is exact
  in `f64`, so the rational model agrees with the source on these inputs.
* The `u8` balance counters of the lexer are modelled with checked arithmetic:
  the overflow/underflow that panics in a checked Rust build is a dedicated
  `LexError.arithmeticOverflow` outcome.
* Fallible Rust code returning `anyhow::Result` is modelled with `Except`,
  one error constructor per distinct `anyhow!` message.
* Source loops that can spin forever (the lexer's empty-symbol loop, the
  compiler's `_ => {}` arms) are modelled by `Option`: `none` marks
  divergence.  The top-level lexer driver is fuelled accordingly.
-/

attribute [local semireducible] Rat.add Rat.mul Rat.sub Rat.inv

namespace OlcDiy

/-- Enumeration of operator kinds, mirroring `OperatorKind` in
`lexer/shared_types/operators.rs`. -/
inductive OperatorKind where
  | exp
  | product
  | quotient
  | difference
  | sum
  | negate
  | positive
  | logicalOr
  | logicalAnd
  | logicalNot
  | equals
  | different
  | greaterThan
  | greaterThanEqual
  | lessThan
  | lessThanEqual
deriving DecidableEq

/-- Operator record: kind, precedence and arity, mirroring `struct Operator`.
`precedence` and `arity` are `u8` in the source; all values actually
constructed are tiny, so `Nat` is a faithful model. -/
structure Operator where
  kind : OperatorKind
  precedence : Nat
  arity : Nat
deriving DecidableEq

/-- Constructor `Operator::unary`. -/
def Operator.unary (kind : OperatorKind) (precedence : Nat) : Operator :=
  ⟨kind, precedence, 1⟩

/-- Constructor `Operator::binary`. -/
def Operator.binary (kind : OperatorKind) (precedence : Nat) : Operator :=
  ⟨kind, precedence, 2⟩

/-- The operator catalog `Operator::from` (spelling → operator), including the
precedence table.  Unknown spellings produce `none` (`anyhow!` error in the
source). -/
def Operator.from_spelling (str : String) : Option Operator :=
  if str = ("+") then some (Operator.binary .sum 2)
  else if str = ("-") then some (Operator.binary .difference 2)
  else if str = ("*") then some (Operator.binary .product 3)
  else if str = ("/") then some (Operator.binary .quotient 3)
  else if str = ("^") ∨ str = ("**") then some (Operator.binary .exp 4)
  else if str = ("!") then some (Operator.unary .logicalNot 4)
  else if str = ("&&") then some (Operator.binary .logicalAnd 3)
  else if str = ("||") then some (Operator.binary .logicalOr 3)
  else if str = ("==") then some (Operator.binary .equals 1)
  else if str = ("!=") then some (Operator.binary .different 1)
  else if str = (">") then some (Operator.binary .greaterThan 1)
  else if str = (">=") then some (Operator.binary .greaterThanEqual 1)
  else if str = ("<") then some (Operator.binary .lessThan 1)
  else if str = ("<=") then some (Operator.binary .lessThanEqual 1)
  else none

/-- Model of `f64::powf` on rationals, restricted to integer exponents where
`powf` is exact on the values probed here; other exponents are unreachable in
the claims below. -/
def powfModel (left right : ℚ) : ℚ :=
  if right.den = 1 then left ^ right.num else 0

/-- Binary arithmetic compute rule `Operator::compute_2`; the `_ => 0.0`
fallback covers all logical/comparison kinds. -/
def Operator.compute_2 (self : Operator) (left right : ℚ) : ℚ :=
  match self.kind with
  | .exp => powfModel left right
  | .product => left * right
  | .quotient => left / right
  | .difference => left - right
  | .sum => left + right
  | _ => 0

/-- Unary arithmetic compute rule `Operator::compute_1`; the `_ => 0.0`
fallback covers all other kinds. -/
def Operator.compute_1 (self : Operator) (operand : ℚ) : ℚ :=
  match self.kind with
  | .negate => -operand
  | .positive => operand
  | _ => 0

/-- Binary logical compute rule `Operator::logical_compute_2` (present in the
source but never called by `Expression::solve`). -/
def Operator.logical_compute_2 (self : Operator) (left right : Bool) : Bool :=
  match self.kind with
  | .logicalOr => left || right
  | .logicalAnd => left && right
  | .equals => left == right
  | .different => left != right
  | .greaterThan => left > right
  | .greaterThanEqual => left ≥ right
  | .lessThan => left < right
  | .lessThanEqual => left ≤ right
  | _ => true

/-- Unary logical compute rule `Operator::logical_compute_1` (present in the
source but never called by `Expression::solve`). -/
def Operator.logical_compute_1 (self : Operator) (operand : Bool) : Bool :=
  match self.kind with
  | .logicalNot => !operand
  | _ => true

/-- Keyword enumeration from `lexer/shared_types/keywords.rs`. -/
inductive Keyword where
  | True | False | Null | Let | Const | Class | New | Import | From
  | Function | If | Else | Foreach | While | For | Export | Typeof | In
deriving DecidableEq

/-- Token kind tag set from `lexer/shared_types/token_kinds.rs`. -/
inductive TokenKind where
  | numericLiteral
  | stringLiteral
  | symbol
  | operator : Operator → TokenKind
  | colon
  | separator
  | openingParenthesis
  | closingParenthesis
  | openingScope
  | closingScope
  | endOfStatement
  | keyword : Keyword → TokenKind
  | unknown
deriving DecidableEq

/-- Token record from `lexer/shared_types.rs`: kind, optional numeric value
(`f64` modelled as `ℚ`), and the lexeme `id`. -/
structure Token where
  kind : TokenKind
  value : Option ℚ
  id : String
deriving DecidableEq

/-- The `unary` flag computed at the top of `Operator::correct_arity`: an
operator is unary unless the previous token is a numeric literal or a closing
parenthesis. -/
def unaryPosition (previous : Option Token) : Bool :=
  match previous with
  | some p =>
    decide (p.kind ≠ TokenKind.numericLiteral) &&
      decide (p.kind ≠ TokenKind.closingParenthesis)
  | none => true

/-- Contextual re-arity resolution `Operator::correct_arity`.  The source
returns `Result` but every path is `Ok`, so the model returns the operator
directly. -/
def Operator.correct_arity (self : Operator) (previous : Option Token) : Operator :=
  let unary := unaryPosition previous
  match self.kind with
  | .difference => if unary then Operator.unary .negate 5 else self
  | .sum => if unary then Operator.unary .positive 5 else self
  | .negate => if unary then self else Operator.binary .difference 2
  | .positive => if unary then self else Operator.binary .sum 2
  | _ => self

/-- Operator spelling used for token ids, mirroring `Display for OperatorKind`. -/
def OperatorKind.display : OperatorKind → String
  | .exp => ("^")
  | .product => ("*")
  | .quotient => ("/")
  | .difference => ("-")
  | .negate => ("-")
  | .sum => ("+")
  | .positive => ("+")
  | .logicalOr => ("||")
  | .logicalAnd => ("&&")
  | .logicalNot => ("!")
  | .equals => ("==")
  | .different => ("!=")
  | .greaterThan => (">")
  | .greaterThanEqual => (">=")
  | .lessThan => ("<")
  | .lessThanEqual => ("<=")

/-- Sum of the digits of a decimal digit run, most significant first
(`char` code minus 48 per digit). -/
def decimalNatVal (cs : List Char) : Nat :=
  cs.foldl (fun a c => 10 * a + (c.toNat - 48)) 0

/-- Split a character list at the first decimal point.  Lexer-produced numeric
lexemes contain at most one point, so one split suffices. -/
def splitAtDot : List Char → List Char × List Char
  | [] => ([], [])
  | c :: cs =>
    if c = '.' then ([], cs)
    else
      let r := splitAtDot cs
      (c :: r.1, r.2)

/-- Value of a decimal literal lexeme, modelling `str.parse::<f64>()` exactly
on the integral inputs probed by the claims. -/
def decimalValue (s : String) : ℚ :=
  let parts := splitAtDot s.toList
  (decimalNatVal parts.1 : ℚ) +
    (decimalNatVal parts.2 : ℚ) / ((10 : ℚ) ^ parts.2.length)

/-- Value of a single character as a digit in bases up to 16 (0 for
non-digits, which are filtered out by the callers). -/
def hexDigitVal (c : Char) : Nat :=
  if '0' ≤ c ∧ c ≤ '9' then c.toNat - 48
  else if 'a' ≤ c ∧ c ≤ 'f' then c.toNat - 87
  else if 'A' ≤ c ∧ c ≤ 'F' then c.toNat - 55
  else 0

/-- Whether a character is a valid digit in the given radix. -/
def isRadixDigit (radix : Nat) (c : Char) : Bool :=
  (('0' ≤ c && c ≤ '9') || ('a' ≤ c && c ≤ 'f') || ('A' ≤ c && c ≤ 'F')) &&
    hexDigitVal c < radix

/-- Model of `u64::from_str_radix`: `none` on an empty digit run, an invalid
digit, or overflow past `u64::MAX`. -/
def from_str_radix (radix : Nat) (cs : List Char) : Option Nat :=
  if cs = [] then none
  else if cs.all (fun c => isRadixDigit radix c) then
    let v := cs.foldl (fun a c => radix * a + hexDigitVal c) 0
    if v < 2 ^ 64 then some v else none
  else none

/-- Iteration core of `trimStartMatches`.  Each strip of a nonempty pattern
removes at least one character, so fuel `s.length + 1` never runs out before
the pattern stops matching. -/
def trimStartAux : Nat → List Char → List Char → List Char
  | 0, s, _ => s
  | n + 1, s, p =>
    if p ≠ [] ∧ s.take p.length = p then trimStartAux n (s.drop p.length) p
    else s

/-- Model of `str::trim_start_matches`: repeatedly strip the pattern while it
is a prefix. -/
def trimStartMatches (s : List Char) (p : List Char) : List Char :=
  trimStartAux (s.length + 1) s p

/-- Token constructor `Token::new`. -/
def Token.new : Token :=
  ⟨.unknown, none, ("")⟩

/-- Token constructor `Token::from_digits`. -/
def Token.from_digits (str : String) : Token :=
  ⟨.numericLiteral, some (decimalValue str), str⟩

/-- Token constructor `Token::from_hex`: strip the `0x` prefix, parse in base
16, defaulting to zero on parse failure or overflow; the lexeme keeps the full
original text.  The `u64 → f64` cast is exact below `2 ^ 53`, which covers
every value probed here. -/
def Token.from_hex (str : String) : Token :=
  let hex_representation := trimStartMatches str.toList (['0', 'x'])
  let int_value := (from_str_radix 16 hex_representation).getD 0
  ⟨.numericLiteral, some (int_value : ℚ), str⟩

/-- Token constructor `Token::from_bin`: strip the `0b` prefix, parse in base
2, defaulting to zero on parse failure or overflow. -/
def Token.from_bin (str : String) : Token :=
  let bin_representation := trimStartMatches str.toList (['0', 'b'])
  let int_value := (from_str_radix 2 bin_representation).getD 0
  ⟨.numericLiteral, some (int_value : ℚ), str⟩

/-- Token constructor `Token::from_str` (string literal). -/
def Token.from_string_literal (str : String) : Token :=
  ⟨.stringLiteral, none, str⟩

/-- Token constructor `Token::from_operator`; the id is the canonical operator
spelling. -/
def Token.from_operator (op : Operator) : Token :=
  ⟨.operator op, none, op.kind.display⟩

/-- Token constructor `Token::open_parenthesis`. -/
def Token.open_parenthesis : Token :=
  ⟨.openingParenthesis, none, ("(")⟩

/-- Token constructor `Token::close_parenthesis`. -/
def Token.close_parenthesis : Token :=
  ⟨.closingParenthesis, none, (")")⟩

/-- Token constructor `Token::open_scope`. -/
def Token.open_scope : Token :=
  ⟨.openingScope, none, ("\x7b")⟩

/-- Token constructor `Token::close_scope`. -/
def Token.close_scope : Token :=
  ⟨.closingScope, none, ("\x7d")⟩

/-- Token constructor `Token::separator`. -/
def Token.separator : Token :=
  ⟨.separator, none, (",")⟩

/-- Token constructor `Token::end_of_statement`. -/
def Token.end_of_statement : Token :=
  ⟨.endOfStatement, none, (";")⟩

/-- Token constructor `Token::symbol`. -/
def Token.symbol (name : String) : Token :=
  ⟨.symbol, none, name⟩

/-- Character membership table builder `make_lut`, as a predicate.  The source
indexes a 256-entry table with `c as usize`; the inputs probed here are ASCII,
where the predicate agrees with the table. -/
def make_lut (s : String) (c : Char) : Bool :=
  s.toList.contains c

/-- Decimal digit table `NUMERIC_DIGITS`. -/
def NUMERIC_DIGITS : Char → Bool := make_lut ("0123456789")

/-- Decimal digit or point table `REAL_NUMERIC_DIGITS`. -/
def REAL_NUMERIC_DIGITS : Char → Bool := make_lut (".0123456789")

/-- Hexadecimal digit table `HEX_NUMERIC_DIGITS`. -/
def HEX_NUMERIC_DIGITS : Char → Bool := make_lut ("0123456789ABCDEFabcdef")

/-- Binary digit table `BINARY_NUMERIC_DIGITS`. -/
def BINARY_NUMERIC_DIGITS : Char → Bool := make_lut ("01")

/-- Whitespace table `WHITESPACE`. -/
def WHITESPACE : Char → Bool := make_lut (" \t\n\r\x0C")

/-- Operator character table `OPERATOR_CHARACTERS`. -/
def OPERATOR_CHARACTERS : Char → Bool := make_lut ("!$%^&*+-=#@?|`/\\<>~")

/-- Identifier character table `SYMBOL_CHARACTERS`. -/
def SYMBOL_CHARACTERS : Char → Bool :=
  make_lut ("abcdefghijklmnopqrstuvwxyzABCDEFGHIJKLMNOPQRSTUVWXYZ_0123456789")

/-- Lexer failure taxonomy: one constructor per distinct `anyhow!` message in
`states.rs`, plus `arithmeticOverflow` for the checked-build panic of the `u8`
balance counters. -/
inductive LexError where
  | noInputProvided
  | multipleDecimalSeparator
  | invalidNumberSymbol
  | badNumericLiteral
  | invalidRadixNumber
  | missingQuotationMark
  | unrecognizedOperator
  | danglingOperator
  | unbalancedParentheses
  | unbalancedScope
  | arithmeticOverflow
deriving DecidableEq

/-- The lexer states of `states.rs`, one constructor per `State` impl. -/
inductive LexState where
  | start
  | newToken
  | completeToken
  | numericLiteral
  | fancyNumericLiteral
  | binaryNumericLiteral
  | hexNumericLiteral
  | stringLiteral
  | operatorState
  | parenthesisOpen
  | parenthesisClose
  | scopeOpen
  | scopeClose
  | separator
  | endOfStatement
  | symbolName
  | endState
deriving DecidableEq

/-- The `is_final` method: only `EndState` is final. -/
def LexState.is_final : LexState → Bool
  | .endState => true
  | _ => false

/-- The shared scan data `TemporaryData`.  The peekable character iterator is
the list of remaining characters; the `u8` balance counters are `Nat` with
checked arithmetic in the handlers. -/
structure TemporaryData where
  input : String
  output : List Token
  chars : List Char
  current_token_string : String
  current_token : Token
  decimal_point_found : Bool
  paren_balance_check : Nat
  scope_balance_check : Nat
deriving DecidableEq

/-- The `TemporaryData::new` constructor. -/
def TemporaryData.new (input : String) : TemporaryData :=
  ⟨input, [], input.toList, (""), Token.new, false, 0, 0⟩

/-- Advance the character iterator (`chars.next()`). -/
def TemporaryData.consume (tmp : TemporaryData) : TemporaryData :=
  { tmp with chars := tmp.chars.tail }

/-- Append a character to the accumulated lexeme
(`current_token_string.push(c)`). -/
def TemporaryData.pushChar (tmp : TemporaryData) (c : Char) : TemporaryData :=
  { tmp with current_token_string := tmp.current_token_string.push c }

/-- Checked `u8` increment: a checked Rust build panics at 255 + 1. -/
def incBalanceU8 (n : Nat) : Option Nat :=
  if n = 255 then none else some (n + 1)

/-- Checked `u8` decrement: a checked Rust build panics at 0 - 1. -/
def decBalanceU8 (n : Nat) : Option Nat :=
  if n = 0 then none else some (n - 1)

/-- Helper `single_character_handler`: run the balance adjustment, consume the
character, install the built token, and complete.  A `none` balance result is
the checked-arithmetic panic. -/
def single_character_handler (tmp : TemporaryData) (balanced : Option TemporaryData)
    (token_builder : Token) : Except LexError (LexState × TemporaryData) :=
  match balanced with
  | none => .error .arithmeticOverflow
  | some tmp => .ok (.completeToken, { tmp.consume with current_token := token_builder })

/-- Helper `fancy_numeric_handler` shared by the hex and binary literal
states. -/
def fancy_numeric_handler (tmp : TemporaryData) (digits : Char → Bool) (state : LexState)
    (token_builder : String → Token) : Except LexError (LexState × TemporaryData) :=
  match tmp.chars with
  | c :: _ =>
    if digits c then
      .ok (state, (tmp.pushChar c).consume)
    else if SYMBOL_CHARACTERS c || c = '.' then
      .error .invalidRadixNumber
    else
      .ok (.completeToken, { tmp with current_token := token_builder tmp.current_token_string })
  | [] =>
    .ok (.completeToken, { tmp with current_token := token_builder tmp.current_token_string })

/-- One dispatch of the state machine: the `State::handle` implementations of
`states.rs`, keyed on the state tag. -/
def handle : LexState → TemporaryData → Except LexError (LexState × TemporaryData)
  | .start, tmp =>
    if tmp.input.isEmpty then .error .noInputProvided
    else .ok (.newToken, tmp)
  | .newToken, tmp₀ =>
    let tmp : TemporaryData :=
      { tmp₀ with current_token_string := (""), current_token := Token.new,
                  decimal_point_found := false }
    match tmp.chars with
    | c :: _ =>
      if WHITESPACE c then .ok (.newToken, tmp.consume)
      else if NUMERIC_DIGITS c then
        if c = '0' then .ok (.fancyNumericLiteral, (tmp.pushChar c).consume)
        else .ok (.numericLiteral, tmp)
      else if OPERATOR_CHARACTERS c then .ok (.operatorState, tmp)
      else if '(' = c then .ok (.parenthesisOpen, tmp)
      else if ')' = c then .ok (.parenthesisClose, tmp)
      else if '{' = c then .ok (.scopeOpen, tmp)
      else if '}' = c then .ok (.scopeClose, tmp)
      else if ',' = c then .ok (.separator, tmp)
      else if ';' = c then .ok (.endOfStatement, tmp)
      else if '"' = c then .ok (.stringLiteral, tmp.consume)
      else .ok (.symbolName, tmp)
    | [] => .ok (.endState, tmp)
  | .completeToken, tmp₀ =>
    let tmp : TemporaryData := { tmp₀ with output := tmp₀.output ++ [tmp₀.current_token] }
    match tmp.chars with
    | _ :: _ => .ok (.newToken, tmp)
    | [] => .ok (.endState, tmp)
  | .numericLiteral, tmp =>
    match tmp.chars with
    | c :: _ =>
      if REAL_NUMERIC_DIGITS c then
        if c = '.' ∧ tmp.decimal_point_found then
          .error .multipleDecimalSeparator
        else
          let tmp := if c = '.' then { tmp with decimal_point_found := true } else tmp
          .ok (.numericLiteral, (tmp.pushChar c).consume)
      else if SYMBOL_CHARACTERS c then
        .error .invalidNumberSymbol
      else
        .ok (.completeToken,
          { tmp with current_token := Token.from_digits tmp.current_token_string })
    | [] =>
      .ok (.completeToken,
        { tmp with current_token := Token.from_digits tmp.current_token_string })
  | .stringLiteral, tmp =>
    match tmp.chars with
    | c :: _ =>
      if c ≠ '"' then .ok (.stringLiteral, (tmp.pushChar c).consume)
      else
        .ok (.completeToken,
          { tmp.consume with
              current_token := Token.from_string_literal tmp.current_token_string })
    | [] => .error .missingQuotationMark
  | .symbolName, tmp =>
    match tmp.chars with
    | c :: _ =>
      if SYMBOL_CHARACTERS c then .ok (.symbolName, (tmp.pushChar c).consume)
      else
        .ok (.completeToken,
          { tmp with current_token := Token.symbol tmp.current_token_string })
    | [] =>
      .ok (.completeToken,
        { tmp with current_token := Token.symbol tmp.current_token_string })
  | .operatorState, tmp =>
    match tmp.chars with
    | c :: _ =>
      if OPERATOR_CHARACTERS c then
        let tmp_op := tmp.current_token_string.push c
        match Operator.from_spelling tmp_op with
        | some _ => .ok (.operatorState, (tmp.pushChar c).consume)
        | none =>
          match Operator.from_spelling tmp.current_token_string with
          | some op =>
            .ok (.completeToken, { tmp with current_token := Token.from_operator op })
          | none => .ok (.operatorState, (tmp.pushChar c).consume)
      else
        match Operator.from_spelling tmp.current_token_string with
        | some op =>
          .ok (.completeToken, { tmp with current_token := Token.from_operator op })
        | none => .error .unrecognizedOperator
    | [] => .error .danglingOperator
  | .fancyNumericLiteral, tmp =>
    match tmp.chars with
    | c :: _ =>
      if 'x' = c then .ok (.hexNumericLiteral, (tmp.pushChar c).consume)
      else if 'b' = c then .ok (.binaryNumericLiteral, (tmp.pushChar c).consume)
      else if REAL_NUMERIC_DIGITS c then .ok (.numericLiteral, tmp)
      else .error .badNumericLiteral
    | [] =>
      .ok (.completeToken,
        { tmp with current_token := Token.from_digits tmp.current_token_string })
  | .binaryNumericLiteral, tmp =>
    fancy_numeric_handler tmp BINARY_NUMERIC_DIGITS .binaryNumericLiteral Token.from_bin
  | .hexNumericLiteral, tmp =>
    fancy_numeric_handler tmp HEX_NUMERIC_DIGITS .hexNumericLiteral Token.from_hex
  | .parenthesisOpen, tmp =>
    single_character_handler tmp
      ((incBalanceU8 tmp.paren_balance_check).map
        (fun n => { tmp with paren_balance_check := n }))
      Token.open_parenthesis
  | .parenthesisClose, tmp =>
    single_character_handler tmp
      ((decBalanceU8 tmp.paren_balance_check).map
        (fun n => { tmp with paren_balance_check := n }))
      Token.close_parenthesis
  | .scopeOpen, tmp =>
    single_character_handler tmp
      ((incBalanceU8 tmp.scope_balance_check).map
        (fun n => { tmp with scope_balance_check := n }))
      Token.open_scope
  | .scopeClose, tmp =>
    single_character_handler tmp
      ((decBalanceU8 tmp.scope_balance_check).map
        (fun n => { tmp with scope_balance_check := n }))
      Token.close_scope
  | .separator, tmp =>
    single_character_handler tmp (some tmp) Token.separator
  | .endOfStatement, tmp =>
    single_character_handler tmp (some tmp) Token.end_of_statement
  | .endState, tmp =>
    if tmp.paren_balance_check ≠ 0 then .error .unbalancedParentheses
    else if tmp.scope_balance_check ≠ 0 then .error .unbalancedScope
    else .ok (.endState, tmp)

/-- The driver loop of `Lexer::parse`: repeatedly dispatch; once the returned
state is final, dispatch once more (the `EndState` balance checks) and stop.
`none` marks fuel exhaustion, which models the source's diverging scans. -/
def runLexer : Nat → LexState → TemporaryData → Option (Except LexError TemporaryData)
  | 0, _, _ => none
  | n + 1, st, tmp =>
    match handle st tmp with
    | .error e => some (.error e)
    | .ok (st', tmp') =>
      if st'.is_final then
        match handle st' tmp' with
        | .error e => some (.error e)
        | .ok (_, tmp'') => some (.ok tmp'')
      else runLexer n st' tmp'

/-- Entry point `Lexer::parse`: run the state machine from `StartState` and
return the token queue.  The fuel bound comfortably covers every terminating
scan (each character costs a bounded number of dispatches). -/
def tokenize (input : String) : Option (Except LexError (List Token)) :=
  match runLexer (8 * input.length + 16) .start (TemporaryData.new input) with
  | none => none
  | some (.error e) => some (.error e)
  | some (.ok tmp) => some (.ok tmp.output)

/-- Compiler failure taxonomy: the two `anyhow!` messages of
`Compiler::to_expression`. -/
inductive CompileError where
  | notHandledYet
  | missedParsingError
deriving DecidableEq

/-- Compiler state `struct Compiler`: the operator stack (head of the list is
the top, i.e. the end of the source's `Vec`) and the previous token. -/
structure Compiler where
  operator_stack : List Token
  previous_token : Option Token
deriving DecidableEq

/-- A postfix expression `struct Expression`, owning its RPN token queue. -/
structure Expression where
  rpn : List Token
deriving DecidableEq

/-- The operator-arrival pop loop of `Compiler::to_expression`: pop stack
entries into the output while the top is an operator of precedence ≥ the
incoming precedence; stop on an opening parenthesis or an empty stack.  A
stack entry of any other kind makes the source's `while` body do nothing
forever; `none` marks that divergence. -/
def operatorPopLoop (p : Nat) : List Token → List Token → Option (List Token × List Token)
  | [], rpn => some ([], rpn)
  | t :: rest, rpn =>
    match t.kind with
    | .operator o2 =>
      if o2.precedence ≥ p then operatorPopLoop p rest (rpn ++ [t])
      else some (t :: rest, rpn)
    | .openingParenthesis => some (t :: rest, rpn)
    | _ => none

/-- The closing-parenthesis pop loop of `Compiler::to_expression`: pop
operators into the output until an opening parenthesis is found and discarded;
an empty stack simply ends the loop; an `Unknown` entry is an error; any other
kind spins forever (`none`). -/
def closeParenPopLoop : List Token → List Token →
    Option (Except CompileError (List Token × List Token))
  | [], rpn => some (.ok ([], rpn))
  | t :: rest, rpn =>
    match t.kind with
    | .operator _ => closeParenPopLoop rest (rpn ++ [t])
    | .openingParenthesis => some (.ok (rest, rpn))
    | .unknown => some (.error .missedParsingError)
    | _ => none

/-- The per-token body of the `for token in input.iter()` loop of
`Compiler::to_expression`.  The source's match has no arm for `Colon` (the
state machine never produces one); it is grouped with the unsupported kinds
per spec §4.4. -/
def processToken (c : Compiler) (rpn : List Token) (token : Token) :
    Option (Except CompileError (Compiler × List Token)) :=
  match token.kind with
  | .numericLiteral =>
    some (.ok ({ c with previous_token := some token }, rpn ++ [token]))
  | .operator o1 =>
    let o1 := o1.correct_arity c.previous_token
    match operatorPopLoop o1.precedence c.operator_stack rpn with
    | none => none
    | some (stack, rpn) =>
      let updated_token : Token := { token with kind := .operator o1 }
      some (.ok (⟨updated_token :: stack, some updated_token⟩, rpn))
  | .openingParenthesis =>
    some (.ok (⟨token :: c.operator_stack, some token⟩, rpn))
  | .closingParenthesis =>
    match closeParenPopLoop c.operator_stack rpn with
    | none => none
    | some (.error e) => some (.error e)
    | some (.ok (stack, rpn)) =>
      some (.ok ({ c with operator_stack := stack, previous_token := some token }, rpn))
  | .openingScope => some (.error .notHandledYet)
  | .closingScope => some (.error .notHandledYet)
  | .symbol => some (.error .notHandledYet)
  | .separator => some (.error .notHandledYet)
  | .stringLiteral => some (.error .notHandledYet)
  | .endOfStatement => some (.error .notHandledYet)
  | .keyword _ => some (.error .notHandledYet)
  | .colon => some (.error .notHandledYet)
  | .unknown => some (.error .missedParsingError)

/-- The token loop of `Compiler::to_expression` over the whole input. -/
def compileLoop : List Token → Compiler → List Token →
    Option (Except CompileError (Compiler × List Token))
  | [], c, rpn => some (.ok (c, rpn))
  | t :: ts, c, rpn =>
    match processToken c rpn t with
    | none => none
    | some (.error e) => some (.error e)
    | some (.ok (c, rpn)) => compileLoop ts c rpn

/-- The end-of-scan drain of `Compiler::to_expression`: pop the remaining
operator stack into the output, top first. -/
def drain : List Token → List Token → List Token
  | [], rpn => rpn
  | t :: ts, rpn => drain ts (rpn ++ [t])

/-- Entry point `Compiler::to_expression`, started from `Compiler::new`. -/
def to_expression (input : List Token) : Option (Except CompileError Expression) :=
  match compileLoop input ⟨[], none⟩ [] with
  | none => none
  | some (.error e) => some (.error e)
  | some (.ok (c, rpn)) => some (.ok ⟨drain c.operator_stack rpn⟩)

/-- Solver failure taxonomy: `MalformedExpression` is the value-stack underflow
error; the two panic constructors model the `unwrap()` calls on a missing
numeric value and on the final pop of an empty stack. -/
inductive SolveError where
  | malformedExpression
  | valueUnwrapPanic
  | finalPopPanic
deriving DecidableEq

/-- The token loop of `Expression::solve` over the value stack (head of the
list is the top of the stack). -/
def solveLoop : List Token → List ℚ → Except SolveError (List ℚ)
  | [], st => .ok st
  | t :: ts, st =>
    match t.kind with
    | .numericLiteral =>
      match t.value with
      | some v => solveLoop ts (v :: st)
      | none => .error .valueUnwrapPanic
    | .operator o =>
      if o.arity = 2 then
        match st with
        | right :: left :: rest => solveLoop ts (o.compute_2 left right :: rest)
        | _ => .error .malformedExpression
      else if o.arity = 1 then
        match st with
        | operand :: rest => solveLoop ts (o.compute_1 operand :: rest)
        | [] => .error .malformedExpression
      else solveLoop ts st
    | _ => solveLoop ts st

/-- Evaluator `Expression::solve`: run the token loop and take the top of the
final stack (`pop().unwrap()`). -/
def Expression.solve (e : Expression) : Except SolveError ℚ :=
  match solveLoop e.rpn [] with
  | .error err => .error err
  | .ok [] => .error .finalPopPanic
  | .ok (v :: _) => .ok v

/-- Renderer `Expression::display_postfix`: space-joined lexemes of the RPN
tokens. -/
def Expression.display_postfix (e : Expression) : String :=
  e.rpn.foldl
    (fun acc x => (if acc.isEmpty then acc else acc ++ (" ")) ++ x.id) ("")

/-- Outcome of the full evaluate pipeline, tagging which stage failed. -/
inductive PipelineOutcome where
  | lexFailure : LexError → PipelineOutcome
  | compileFailure : CompileError → PipelineOutcome
  | solveFailure : SolveError → PipelineOutcome
  | value : ℚ → PipelineOutcome
deriving DecidableEq

/-- Full pipeline `solve(compile(tokenize(input)))`, as wired by
`main::process`. -/
def run_pipeline (s : String) : Option PipelineOutcome :=
  match tokenize s with
  | none => none
  | some (.error e) => some (.lexFailure e)
  | some (.ok toks) =>
    match to_expression toks with
    | none => none
    | some (.error e) => some (.compileFailure e)
    | some (.ok expr) =>
      match expr.solve with
      | .error e => some (.solveFailure e)
      | .ok v => some (.value v)

/-- Outcome of the postfix-render pipeline. -/
inductive RenderOutcome where
  | lexFailure : LexError → RenderOutcome
  | compileFailure : CompileError → RenderOutcome
  | text : String → RenderOutcome
deriving DecidableEq

/-- Render pipeline `render_postfix(compile(tokenize(input)))`. -/
def render_pipeline (s : String) : Option RenderOutcome :=
  match tokenize s with
  | none => none
  | some (.error e) => some (.lexFailure e)
  | some (.ok toks) =>
    match to_expression toks with
    | none => none
    | some (.error e) => some (.compileFailure e)
    | some (.ok expr) => some (.text expr.display_postfix)

/-- Decidable equality of `Except` results, used to settle concrete lexer and
compiler outcomes. -/
instance {ε α : Type} [DecidableEq ε] [DecidableEq α] : DecidableEq (Except ε α) := fun x y =>
  match x, y with
  | .error a, .error b =>
    if h : a = b then isTrue (by rw [h]) else isFalse (by simp [h])
  | .ok a, .ok b =>
    if h : a = b then isTrue (by rw [h]) else isFalse (by simp [h])
  | .error _, .ok _ => isFalse (by simp)
  | .ok _, .error _ => isFalse (by simp)

/-- The sixteen operator values constructible through the catalog
(`Operator::from`) and through arity correction (`Operator::correct_arity`):
every operator that can reach the compiler or the solver is one of these. -/
def canonicalOperators : List Operator :=
  [Operator.binary .sum 2, Operator.binary .difference 2,
   Operator.binary .product 3, Operator.binary .quotient 3,
   Operator.binary .exp 4, Operator.unary .logicalNot 4,
   Operator.binary .logicalAnd 3, Operator.binary .logicalOr 3,
   Operator.binary .equals 1, Operator.binary .different 1,
   Operator.binary .greaterThan 1, Operator.binary .greaterThanEqual 1,
   Operator.binary .lessThan 1, Operator.binary .lessThanEqual 1,
   Operator.unary .negate 5, Operator.unary .positive 5]

/-- Claim C3's reading of arity resolution: Sum/Difference re-tag to
Positive/Negate exactly in unary position, Positive/Negate re-tag back to
Sum/Difference exactly in binary position, every other kind passes through
unchanged, and for the four re-taggable kinds the result is unary exactly when
the previous token is absent or neither a numeric literal nor a closing
parenthesis. -/
def correctAritySpec (o : Operator) (prev : Option Token) : Prop :=
  (o.kind = .sum →
    o.correct_arity prev = if unaryPosition prev then Operator.unary .positive 5 else o) ∧
  (o.kind = .difference →
    o.correct_arity prev = if unaryPosition prev then Operator.unary .negate 5 else o) ∧
  (o.kind = .positive →
    o.correct_arity prev = if unaryPosition prev then o else Operator.binary .sum 2) ∧
  (o.kind = .negate →
    o.correct_arity prev = if unaryPosition prev then o else Operator.binary .difference 2) ∧
  (o.kind ≠ .sum → o.kind ≠ .difference → o.kind ≠ .positive → o.kind ≠ .negate →
    o.correct_arity prev = o) ∧
  ((o.kind = .sum ∨ o.kind = .difference ∨ o.kind = .positive ∨ o.kind = .negate) →
    ((o.correct_arity prev).arity = 1 ↔ unaryPosition prev = true))

/-- A stack entry the compiler's operator pop loop can handle without
diverging: an operator or an opening parenthesis (the only kinds the compiler
ever pushes). -/
def isStackEntry (t : Token) : Bool :=
  match t.kind with
  | .operator _ => true
  | .openingParenthesis => true
  | _ => false

/-- The pop condition of the operator arrival loop: the stack entry is an
operator whose precedence is greater than or equal to the incoming
precedence. -/
def popCond (p : Nat) (t : Token) : Bool :=
  match t.kind with
  | .operator o2 => decide (o2.precedence ≥ p)
  | _ => false

/-- Claim C4's characterization of one operator arrival: the incoming operator
is first re-tagged against the previous token, the maximal prefix of the stack
consisting of operators of precedence ≥ the re-tagged precedence moves to the
output in stack order, popping stops at an opening parenthesis or an empty
stack, and the re-tagged operator is pushed and becomes the previous token. -/
def operatorStepSpec (c : Compiler) (rpn : List Token) (token : Token) (o1 : Operator) : Prop :=
  processToken c rpn token =
    some (.ok
      (⟨{ token with kind := .operator (o1.correct_arity c.previous_token) } ::
          c.operator_stack.dropWhile (popCond (o1.correct_arity c.previous_token).precedence),
        some { token with kind := .operator (o1.correct_arity c.previous_token) }⟩,
       rpn ++ c.operator_stack.takeWhile (popCond (o1.correct_arity c.previous_token).precedence)))

/-- Claim C6's characterization of a closing parenthesis with no matching
opener on the stack: every stacked operator is drained to the output, the
parenthesis itself emits nothing, no error is raised, and compilation
continues. -/
def closingParenSpec (c : Compiler) (rpn : List Token) (token : Token) : Prop :=
  processToken c rpn token =
    some (.ok ({ c with operator_stack := [], previous_token := some token },
               rpn ++ c.operator_stack))

/-- Claim C1 (counterexample): the claim lists `"1 == 1"` → `true` and
`"!(1 == 2)"` → `true`, but `Expression::solve` evaluates every operator
through the arithmetic compute path, whose fallback for logical kinds is `0.0`:
both a true and a false comparison produce the same numeric result `0`, so no
run returns a boolean `true`. -/
theorem claim1_counterexample :
    run_pipeline ("1 == 1") = some (.value 0) ∧
    run_pipeline ("1 == 2") = some (.value 0) ∧
    run_pipeline ("!(1 == 2)") = some (.value 0) := by
  refine ⟨by decide, by decide, by decide⟩

/-- Claim C1 (amended): the four arithmetic end-to-end tests produce their
listed results (11, 14, 2, 8); the comparison/logical tests succeed but
produce the number 0, the `compute_2`/`compute_1` fallback for logical
kinds. -/
theorem claim1_end_to_end :
    run_pipeline ("3 + 4 * 2") = some (.value 11) ∧
    run_pipeline ("(3 + 4) * 2") = some (.value 14) ∧
    run_pipeline ("-3 + 5") = some (.value 2) ∧
    run_pipeline ("2 ** 3") = some (.value 8) ∧
    run_pipeline ("1 == 1") = some (.value 0) ∧
    run_pipeline ("!(1 == 2)") = some (.value 0) := by
  refine ⟨by decide, by decide, by decide, by decide, by decide, by decide⟩

/-- Claim C2 (counterexample): the catalog gives the exponent precedence 4,
while arity correction builds Negate and Positive with precedence 5 and the
catalog gives LogicalNot precedence 4, so `precedence(exponent) >
precedence(unary)` fails for all three unary operators. -/
theorem claim2_counterexample :
    Operator.from_spelling ("**") = some (Operator.binary .exp 4) ∧
    Operator.from_spelling ("-") = some (Operator.binary .difference 2) ∧
    (Operator.binary .difference 2).correct_arity none = Operator.unary .negate 5 ∧
    Operator.from_spelling ("!") = some (Operator.unary .logicalNot 4) ∧
    ¬ ((Operator.binary .exp 4).precedence > (Operator.unary .negate 5).precedence) ∧
    ¬ ((Operator.binary .exp 4).precedence > (Operator.unary .logicalNot 4).precedence) := by
  refine ⟨by decide, by decide, by decide, by decide, by decide, by decide⟩

/-- Claim C2 (amended): the precedence order actually realized by the catalog
and by arity correction is: unary Negate = Positive (5) > exponent =
LogicalNot (4) > Product = Quotient = LogicalAnd = LogicalOr (3) > Sum =
Difference (2) > every comparison/equality operator (1). -/
theorem claim2_precedence_order :
    Operator.from_spelling ("+") = some (Operator.binary .sum 2) ∧
    Operator.from_spelling ("-") = some (Operator.binary .difference 2) ∧
    Operator.from_spelling ("*") = some (Operator.binary .product 3) ∧
    Operator.from_spelling ("/") = some (Operator.binary .quotient 3) ∧
    Operator.from_spelling ("^") = some (Operator.binary .exp 4) ∧
    Operator.from_spelling ("**") = some (Operator.binary .exp 4) ∧
    Operator.from_spelling ("!") = some (Operator.unary .logicalNot 4) ∧
    Operator.from_spelling ("&&") = some (Operator.binary .logicalAnd 3) ∧
    Operator.from_spelling ("||") = some (Operator.binary .logicalOr 3) ∧
    Operator.from_spelling ("==") = some (Operator.binary .equals 1) ∧
    Operator.from_spelling ("!=") = some (Operator.binary .different 1) ∧
    Operator.from_spelling (">") = some (Operator.binary .greaterThan 1) ∧
    Operator.from_spelling (">=") = some (Operator.binary .greaterThanEqual 1) ∧
    Operator.from_spelling ("<") = some (Operator.binary .lessThan 1) ∧
    Operator.from_spelling ("<=") = some (Operator.binary .lessThanEqual 1) ∧
    (Operator.binary .difference 2).correct_arity none = Operator.unary .negate 5 ∧
    (Operator.binary .sum 2).correct_arity none = Operator.unary .positive 5 ∧
    (Operator.unary .negate 5).precedence > (Operator.binary .exp 4).precedence ∧
    (Operator.unary .positive 5).precedence > (Operator.binary .exp 4).precedence ∧
    (Operator.binary .exp 4).precedence = (Operator.unary .logicalNot 4).precedence ∧
    (Operator.binary .exp 4).precedence > (Operator.binary .product 3).precedence ∧
    (Operator.binary .product 3).precedence = (Operator.binary .quotient 3).precedence ∧
    (Operator.binary .product 3).precedence = (Operator.binary .logicalAnd 3).precedence ∧
    (Operator.binary .product 3).precedence = (Operator.binary .logicalOr 3).precedence ∧
    (Operator.binary .product 3).precedence > (Operator.binary .sum 2).precedence ∧
    (Operator.binary .sum 2).precedence = (Operator.binary .difference 2).precedence ∧
    (Operator.binary .sum 2).precedence > (Operator.binary .equals 1).precedence ∧
    (Operator.binary .equals 1).precedence = (Operator.binary .different 1).precedence ∧
    (Operator.binary .equals 1).precedence = (Operator.binary .greaterThan 1).precedence ∧
    (Operator.binary .equals 1).precedence = (Operator.binary .greaterThanEqual 1).precedence ∧
    (Operator.binary .equals 1).precedence = (Operator.binary .lessThan 1).precedence ∧
    (Operator.binary .equals 1).precedence = (Operator.binary .lessThanEqual 1).precedence := by
  decide

/-- Claim C7 (counterexample): on the literal input `"3 + "` (with its
trailing space) the operator token completes at the space, the trailing
whitespace is consumed, and lexing succeeds with the two tokens `3` and `+` —
no `DanglingOperator` error. -/
theorem claim7_counterexample :
    tokenize ("3 + ") =
      some (.ok [⟨.numericLiteral, some 3, ("3")⟩,
                 Token.from_operator (Operator.binary .sum 2)]) := by
  decide

/-- Claim C7 (amended): lexing fails with `DanglingOperator` exactly when end
of input is reached mid-operator-scan; that happens on `"3 +"` (the trailing
whitespace stripped, as the read-loop delivers it), while `"3 + "` succeeds
because the operator completes at the space. -/
theorem claim7_dangling_operator :
    tokenize ("3 +") = some (.error .danglingOperator) := by
  decide

/-- Claim C8 (counterexample): `"0b101"` tokenizes to numeric value 5 (the
binary reading of `101`), not 3 as the claim lists. -/
theorem claim8_counterexample :
    tokenize ("0b101") = some (.ok [⟨.numericLiteral, some 5, ("0b101")⟩]) ∧
    (5 : ℚ) ≠ 3 := by
  refine ⟨by decide, by decide⟩

/-- Claim C8 (amended): hex/binary literals parse the digits after the prefix
as an unsigned integer in that base — `"0xFF"` is 255 and `"0b101"` is 5 —
with value 0 on parse failure (`"0x"` with no digits) or overflow past
`u64::MAX` (seventeen `F`s), while the token's lexeme always keeps the
original literal text and its kind is NumericLiteral. -/
theorem claim8_radix_literals :
    tokenize ("0xFF") = some (.ok [⟨.numericLiteral, some 255, ("0xFF")⟩]) ∧
    tokenize ("0b101") = some (.ok [⟨.numericLiteral, some 5, ("0b101")⟩]) ∧
    tokenize ("0x") = some (.ok [⟨.numericLiteral, some 0, ("0x")⟩]) ∧
    Token.from_hex ("0xFFFFFFFFFFFFFFFFF") =
      ⟨.numericLiteral, some 0, ("0xFFFFFFFFFFFFFFFFF")⟩ ∧
    (∀ s : String, (Token.from_hex s).kind = .numericLiteral ∧ (Token.from_hex s).id = s ∧
      (Token.from_bin s).kind = .numericLiteral ∧ (Token.from_bin s).id = s) := by
  refine ⟨by decide, by decide, by decide, by decide, fun s => ⟨rfl, rfl, rfl, rfl⟩⟩

/-- Claim C9 (counterexample): the pipeline on the spec's own test
`"(3 + 4) * 2"` renders the postfix text `"3 4 + 2 *"`, but running the
pipeline on that text fails in the lexer with `DanglingOperator` (the text
ends mid-operator-scan), so the rendered postfix text is not a fixed point. -/
theorem claim9_counterexample :
    render_pipeline ("(3 + 4) * 2") = some (.text ("3 4 + 2 *")) ∧
    render_pipeline ("3 4 + 2 *") = some (.lexFailure .danglingOperator) ∧
    some (RenderOutcome.lexFailure .danglingOperator) ≠
      some (RenderOutcome.text ("3 4 + 2 *")) := by
  refine ⟨by decide, by decide, by decide⟩

/-- Claim C9 (amended): the round trip is a fixed point only when the rendered
postfix text does not end in an operator lexeme — in practice for operator-free
inputs such as `"3"`, which renders to itself; any postfix text ending in an
operator (the postfix form of every expression that uses one) fails
re-tokenization with `DanglingOperator`, as on `"3 4 +"`. -/
theorem claim9_round_trip :
    render_pipeline ("3") = some (.text ("3")) ∧
    render_pipeline ("3 4 +") = some (.lexFailure .danglingOperator) := by
  refine ⟨by decide, by decide⟩

/-- Claim C3: arity resolution re-tags Sum↔Positive and Difference↔Negate
according to the unary-position test (previous token absent, or neither a
numeric literal nor a closing parenthesis), returns every other operator kind
unchanged, and for the four re-taggable kinds the result is unary exactly when
the position is unary. -/
theorem claim3_correct_arity (o : Operator) (prev : Option Token)
    (h : o ∈ canonicalOperators) : correctAritySpec o prev := by
  fin_cases h <;>
    cases hu : unaryPosition prev <;>
      simp_all [correctAritySpec, Operator.correct_arity, Operator.unary, Operator.binary]

/-- Witness for claim C3 at the catalog's `+` operator at the start of the
input. -/
theorem claim3_correct_arity_witness :
    Operator.binary .sum 2 ∈ canonicalOperators ∧
      correctAritySpec (Operator.binary .sum 2) none :=
  ⟨by decide, claim3_correct_arity (Operator.binary .sum 2) none (by decide)⟩

/-- The operator arrival pop loop computes a takeWhile/dropWhile split of the
stack whenever every stack entry is an operator or an opening parenthesis. -/
theorem operatorPopLoop_characterization (p : Nat) (stack : List Token) :
    ∀ rpn : List Token, (∀ t ∈ stack, isStackEntry t = true) →
      operatorPopLoop p stack rpn =
        some (stack.dropWhile (popCond p), rpn ++ stack.takeWhile (popCond p)) := by
  induction stack with
  | nil => intro rpn _; simp [operatorPopLoop]
  | cons t rest ih =>
    intro rpn h
    have ht : isStackEntry t = true := h t (List.mem_cons_self t rest)
    have hrest : ∀ x ∈ rest, isStackEntry x = true :=
      fun x hx => h x (List.mem_cons_of_mem t hx)
    cases hk : t.kind
    case operator o2 =>
      by_cases hp : o2.precedence ≥ p
      · simp [operatorPopLoop, hk, popCond, hp, ih (rpn ++ [t]) hrest]
      · simp [operatorPopLoop, hk, popCond, hp]
    case openingParenthesis =>
      simp [operatorPopLoop, hk, popCond]
    all_goals simp [isStackEntry, hk] at ht

/-- The end-of-scan drain appends the operator stack to the output in stack
order, top first. -/
theorem drain_characterization : ∀ s rpn : List Token, drain s rpn = rpn ++ s := by
  intro s
  induction s with
  | nil => intro rpn; simp [drain]
  | cons t ts ih => intro rpn; simp [drain, ih (rpn ++ [t])]

/-- Claim C4: on an operator token the compiler resolves arity against the
previous token, pops stacked operators of precedence ≥ the resolved precedence
into the output (equal precedence pops; an opening parenthesis or empty stack
stops), pushes the re-tagged operator; and the final drain empties the stack
into the output top-first. -/
theorem claim4_operator_step (c : Compiler) (rpn : List Token) (token : Token)
    (o1 : Operator) (hk : token.kind = .operator o1)
    (hs : ∀ t ∈ c.operator_stack, isStackEntry t = true) :
    operatorStepSpec c rpn token o1 ∧ (∀ s acc : List Token, drain s acc = acc ++ s) := by
  constructor
  · unfold operatorStepSpec processToken
    rw [hk]
    simp only [operatorPopLoop_characterization
      ((o1.correct_arity c.previous_token).precedence) c.operator_stack rpn hs]
  · intro s acc
    exact drain_characterization s acc

/-- Witness for claim C4: a `+` token arriving over a stack holding one `*`
operator. -/
theorem claim4_operator_step_witness :
    (Token.from_operator (Operator.binary .sum 2)).kind =
        TokenKind.operator (Operator.binary .sum 2) ∧
      (∀ t ∈ [Token.from_operator (Operator.binary .product 3)], isStackEntry t = true) ∧
      (operatorStepSpec
          ⟨[Token.from_operator (Operator.binary .product 3)],
            some (Token.from_digits ("4"))⟩
          [] (Token.from_operator (Operator.binary .sum 2)) (Operator.binary .sum 2) ∧
        (∀ s acc : List Token, drain s acc = acc ++ s)) :=
  ⟨rfl, by decide,
    claim4_operator_step
      ⟨[Token.from_operator (Operator.binary .product 3)], some (Token.from_digits ("4"))⟩
      [] (Token.from_operator (Operator.binary .sum 2)) (Operator.binary .sum 2)
      rfl (by decide)⟩

/-- Claim C5: during `solve`, a numeric literal pushes its value; a binary
operator pops the right operand first (it sits nearer the top of the stack)
and the left operand second and pushes the computed result; a unary operator
pops one operand and pushes the computed result; and a pop from a too-short
value stack fails with MalformedExpression. -/
theorem claim5_solve_stack_discipline :
    (∀ (t : Token) (ts : List Token) (st : List ℚ) (v : ℚ),
      t.kind = .numericLiteral → t.value = some v →
        solveLoop (t :: ts) st = solveLoop ts (v :: st)) ∧
    (∀ (t : Token) (ts : List Token) (o : Operator) (right left : ℚ) (rest : List ℚ),
      t.kind = .operator o → o.arity = 2 →
        solveLoop (t :: ts) (right :: left :: rest) =
          solveLoop ts (o.compute_2 left right :: rest)) ∧
    (∀ (t : Token) (ts : List Token) (o : Operator) (operand : ℚ) (rest : List ℚ),
      t.kind = .operator o → o.arity = 1 →
        solveLoop (t :: ts) (operand :: rest) =
          solveLoop ts (o.compute_1 operand :: rest)) ∧
    (∀ (t : Token) (ts : List Token) (o : Operator),
      t.kind = .operator o → o.arity = 2 →
        solveLoop (t :: ts) [] = .error .malformedExpression) ∧
    (∀ (t : Token) (ts : List Token) (o : Operator) (x : ℚ),
      t.kind = .operator o → o.arity = 2 →
        solveLoop (t :: ts) [x] = .error .malformedExpression) ∧
    (∀ (t : Token) (ts : List Token) (o : Operator),
      t.kind = .operator o → o.arity = 1 →
        solveLoop (t :: ts) [] = .error .malformedExpression) := by
  refine ⟨?_, ?_, ?_, ?_, ?_, ?_⟩
  · intro t ts st v hk hv
    simp [solveLoop, hk, hv]
  · intro t ts o right left rest hk ha
    simp [solveLoop, hk, ha]
  · intro t ts o operand rest hk ha
    have : o.arity ≠ 2 := by omega
    simp [solveLoop, hk, ha, this]
  · intro t ts o hk ha
    simp [solveLoop, hk, ha]
  · intro t ts o x hk ha
    simp [solveLoop, hk, ha]
  · intro t ts o hk ha
    have : o.arity ≠ 2 := by omega
    simp [solveLoop, hk, ha, this]

/-- Witness for claim C5: its first conjunct applied to the literal `3`. -/
theorem claim5_solve_stack_discipline_witness :
    (Token.from_digits ("3")).kind = TokenKind.numericLiteral ∧
      (Token.from_digits ("3")).value = some 3 ∧
      solveLoop [Token.from_digits ("3")] [] = solveLoop [] [3] :=
  ⟨rfl, by decide,
    claim5_solve_stack_discipline.1 (Token.from_digits ("3")) [] [] 3 rfl (by decide)⟩

/-- The closing-parenthesis pop loop drains an all-operator stack entirely
into the output without error. -/
theorem closeParenPopLoop_all_operators (stack : List Token) :
    ∀ rpn : List Token, (∀ t ∈ stack, ∃ o, t.kind = .operator o) →
      closeParenPopLoop stack rpn = some (.ok ([], rpn ++ stack)) := by
  induction stack with
  | nil => intro rpn _; simp [closeParenPopLoop]
  | cons t rest ih =>
    intro rpn h
    obtain ⟨o, ho⟩ := h t (List.mem_cons_self t rest)
    have hrest : ∀ x ∈ rest, ∃ o, x.kind = .operator o :=
      fun x hx => h x (List.mem_cons_of_mem t hx)
    simp only [closeParenPopLoop, ho, ih (rpn ++ [t]) hrest, List.append_assoc,
      List.singleton_append]

/-- Claim C6: a closing parenthesis whose pop loop finds no opening
parenthesis (an all-operator stack, in particular the empty stack) does not
fail: the loop drains the stack and exits, compilation continues, and no token
is emitted for the parenthesis itself. -/
theorem claim6_unmatched_closing_paren (c : Compiler) (rpn : List Token) (token : Token)
    (hk : token.kind = .closingParenthesis)
    (hs : ∀ t ∈ c.operator_stack, ∃ o, t.kind = .operator o) :
    closingParenSpec c rpn token := by
  unfold closingParenSpec processToken
  rw [hk]
  simp only [closeParenPopLoop_all_operators c.operator_stack rpn hs]

/-- Witness for claim C6: a bare closing parenthesis over a stack holding one
`+` operator. -/
theorem claim6_unmatched_closing_paren_witness :
    Token.close_parenthesis.kind = TokenKind.closingParenthesis ∧
      (∀ t ∈ [Token.from_operator (Operator.binary .sum 2)], ∃ o, t.kind = .operator o) ∧
      closingParenSpec ⟨[Token.from_operator (Operator.binary .sum 2)], none⟩ []
        Token.close_parenthesis :=
  ⟨rfl,
    fun t ht => by
      rw [List.mem_singleton] at ht
      exact ⟨Operator.binary .sum 2, by rw [ht]; rfl⟩,
    claim6_unmatched_closing_paren ⟨[Token.from_operator (Operator.binary .sum 2)], none⟩ []
      Token.close_parenthesis rfl
      (fun t ht => by
        rw [List.mem_singleton] at ht
        exact ⟨Operator.binary .sum 2, by rw [ht]; rfl⟩)⟩

/-- Claim C10: the lexer's parenthesis and scope balance counters are `u8`
(`TemporaryData` in `states.rs`); on `")("` and on `"}{"` the close state's
decrement underflows the counter at value 0 — an arithmetic-overflow panic in
a checked build, modelled as `LexError.arithmeticOverflow` — instead of
reaching `EndState`'s UnbalancedParentheses/UnbalancedScope checks. -/
theorem claim10_balance_underflow :
    tokenize (")(") = some (.error .arithmeticOverflow) ∧
    tokenize ("\x7d\x7b") = some (.error .arithmeticOverflow) ∧
    LexError.arithmeticOverflow ≠ LexError.unbalancedParentheses ∧
    LexError.arithmeticOverflow ≠ LexError.unbalancedScope := by
  refine ⟨by decide, by decide, by decide, by decide⟩

end OlcDiy
